import Mathlib

/-!
Verification of the Multi-Agent RAG system (router / retrieval / web-search /
orchestrator pipeline).  The Python sources are shallowly embedded: each pure
transformation becomes a Lean function, calls into opaque external services
(the generation model, the embedding API, the Qdrant index, the DuckDuckGo
gateway) become explicit outcome parameters (`ok`/`raises`), and effects on
the vector index are recorded as explicit traces.
-/

set_option maxHeartbeats 1000000

namespace MultiAgentRAG

/-- Python `sep.join(pieces)` over a list of strings. -/
def joinSep (sep : String) : List String → String
  | [] => ""
  | [x] => x
  | x :: xs => x ++ sep ++ joinSep sep xs

/-- `RoutingDecision` from agents.py: two independent booleans. -/
structure RoutingDecision where
  vector_search : Bool
  web_search : Bool
deriving DecidableEq

/-- The payload of `routing_result.data` at the call site in main.py:
either an actual `RoutingDecision` or something of an unexpected shape
(`isinstance` check fails). -/
inductive RouterData where
  | decision (d : RoutingDecision)
  | unexpected
deriving DecidableEq

/-- Outcome of `await router_agent.run(query)` as observed in main.py:
the call raises, or returns a possibly-falsy result carrying `.data`. -/
inductive RoutingCall where
  | raises
  | returns (result : Option RouterData)
deriving DecidableEq

/-- main.py lines 67-81: the decision actually used for branch selection.
`decision` starts as `{vector_search=False, web_search=False}`; on a
successful call returning a genuine `RoutingDecision` it is replaced, and if
both flags are true `decision.web_search` is set to `False`; any exception or
unexpected data leaves the default in place. -/
def effectiveDecision (call : RoutingCall) : RoutingDecision :=
  let decision0 : RoutingDecision := ⟨false, false⟩
  match call with
  | .raises => decision0
  | .returns result =>
    match result with
    | some (RouterData.decision d) =>
      if d.vector_search && d.web_search then { d with web_search := false } else d
    | _ => decision0

/-- State of a pydantic-ai `Agent` instance as mutated by main.py:
its system prompt, its tool list (tools identified by name), and the
`auto_execute_tools` flag. -/
structure AgentState where
  system_prompt : String
  tools : List String
  auto_execute_tools : Bool
deriving DecidableEq

/-- Outcome of `await agent.run(query)`: the call raises, or returns a
possibly-falsy result whose `.data` is the generated text (possibly None). -/
inductive RunOutcome where
  | returns (result : Option (Option String))
  | raises
deriving DecidableEq

/-- main.py `final_answer = result.data if result else None`. -/
def resultAnswer (result : Option (Option String)) : Option String :=
  match result with
  | some data => data
  | none => none

/-- Outcome of one execution branch of main.py lines 86-118: the (possibly
mutated) shared web-search agent state, the `final_answer`, and the
`agent_used` label. -/
structure TurnResult where
  wsAgent : AgentState
  final_answer : Option String
  agent_used : String
deriving DecidableEq

/-- main.py line 118: the synthetic answer substituted by the outer
`except` when a branch raises. -/
def errorAnswer (agent_used : String) : String :=
  "Error processing request via " ++ agent_used ++ ". Please check logs."

/-- main.py lines 87-93: the vector-search branch.  It mutates only the RAG
agent (`rag_agent.auto_execute_tools = True`), never the shared web-search
agent, so `ws` passes through unchanged. -/
def ragBranch (ws : AgentState) (run : RunOutcome) : TurnResult :=
  let agent_used := "RAG Agent (Vector Search)"
  match run with
  | .raises => ⟨ws, some (errorAnswer agent_used), agent_used⟩
  | .returns result => ⟨ws, resultAnswer result, agent_used⟩

/-- main.py lines 94-99: the web-search branch.  It sets
`web_search_agent.auto_execute_tools = True` before running; the flag stays
set whether or not the run raises. -/
def webBranch (ws : AgentState) (run : RunOutcome) : TurnResult :=
  let agent_used := "Web Search Agent"
  let ws1 : AgentState := { ws with auto_execute_tools := true }
  match run with
  | .raises => ⟨ws1, some (errorAnswer agent_used), agent_used⟩
  | .returns result => ⟨ws1, resultAnswer result, agent_used⟩

/-- main.py line 109: the temporary direct-answer system prompt. -/
def DIRECT_ANSWER_PROMPT : String :=
  "As an AI assistant, answer concisely based on general knowledge. Do not mention searching or tools."

/-- main.py lines 100-114: the direct-answer branch.  It saves the shared
web-search agent's tools and prompt, temporarily sets `tools = []`,
`auto_execute_tools = False` and the direct-answer prompt, runs, and in a
`finally` block restores `tools` and `system_prompt` (but not
`auto_execute_tools`) on every exit path, including when the run raises. -/
def directBranch (ws : AgentState) (run : RunOutcome) : TurnResult :=
  let agent_used := "Direct Answer Agent"
  let original_tools := ws.tools
  let original_prompt := ws.system_prompt
  let ws1 : AgentState :=
    { ws with tools := [], auto_execute_tools := false, system_prompt := DIRECT_ANSWER_PROMPT }
  let ws2 : AgentState := { ws1 with tools := original_tools, system_prompt := original_prompt }
  match run with
  | .raises => ⟨ws2, some (errorAnswer agent_used), agent_used⟩
  | .returns result => ⟨ws2, resultAnswer result, agent_used⟩

/-- main.py lines 86-118: branch selection on the effective decision
(`if decision.vector_search: ... elif decision.web_search: ... else: ...`). -/
def executeTurn (decision : RoutingDecision) (ws : AgentState) (run : RunOutcome) : TurnResult :=
  if decision.vector_search then ragBranch ws run
  else if decision.web_search then webBranch ws run
  else directBranch ws run

/-- main.py lines 120-128: the string displayed as the final answer.
A truthy `final_answer` is stripped and shown; a falsy one (None or the
empty string) is replaced by the per-agent sentinel. -/
def displayAnswer (final_answer : Option String) (agent_used : String) : String :=
  match final_answer with
  | some s =>
    if s = "" then "<" ++ agent_used ++ " could not generate a response.>"
    else s.trim
  | none => "<" ++ agent_used ++ " could not generate a response.>"

/-! ### tools.py -/

/-- Outcome of a call into an opaque external gateway: a value, or a raised
exception (abstracted as its message). -/
inductive GatewayResult (α : Type) where
  | ok (val : α)
  | raises (msg : String)
deriving DecidableEq

/-- A Qdrant `ScoredPoint` as consumed by tools.py: an ID, a score (floats
abstracted as their `"{score:.4f}"` rendering, which is all the tool uses),
and an optional payload dictionary. -/
structure ScoredPoint where
  pointId : Nat
  scoreStr : String
  payload : Option (List (String × String))
deriving DecidableEq

/-- The retrievable content of a hit: `doc.payload["content"]` when the
payload is truthy and has the key, else nothing. -/
def contentOf (doc : ScoredPoint) : Option String :=
  match doc.payload with
  | some kvs => if kvs = [] then none else kvs.lookup "content"
  | none => none

/-- tools.py line 71: `f"Document {i+1} (Score: {doc.score:.4f}):\n{...}"`. -/
def docBlock (rank : Nat) (scoreStr content : String) : String :=
  "Document " ++ toString rank ++ " (Score: " ++ scoreStr ++ "):\n" ++ content

/-- tools.py lines 68-74: the `for i, doc in enumerate(search_results)` loop,
collecting a formatted block per hit with a truthy payload containing
`"content"` and skipping the rest; `i` is the running enumerate index. -/
def formatHitsAux (i : Nat) : List ScoredPoint → List String
  | [] => []
  | doc :: rest =>
    let tail := formatHitsAux (i + 1) rest
    match doc.payload with
    | some kvs =>
      if kvs = [] then tail
      else
        match kvs.lookup "content" with
        | some content => docBlock (i + 1) doc.scoreStr content :: tail
        | none => tail
    | none => tail

/-- The join separator `"\n\n---\n\n"` used by both tools. -/
def SEPARATOR : String := "\n\n---\n\n"

/-- tools.py lines 23-87: `vector_search_tool`, parameterized by whether the
Qdrant client dependency is present, the embedding call's outcome, and the
similarity search's outcome.  Every exception path folds into a returned
string (the trailing `except` at lines 84-87). -/
def vector_search_tool (depsOk : Bool)
    (embedCall : GatewayResult (List (List Int)))
    (searchCall : GatewayResult (List ScoredPoint)) : String :=
  if !depsOk then
    "Error: Vector search cannot be performed due to missing client setup."
  else
    match embedCall with
    | .raises e => "An unexpected error occurred during vector search: " ++ e
    | .ok query_embedding =>
      if query_embedding = [] then
        "Error: Could not generate embedding for the search query."
      else
        match searchCall with
        | .raises e => "An unexpected error occurred during vector search: " ++ e
        | .ok search_results =>
          if search_results = [] then
            "No relevant documents found in the knowledge base for this query."
          else
            let context_pieces := formatHitsAux 0 search_results
            if context_pieces = [] then
              "Found relevant document references, but could not retrieve their content."
            else
              joinSep SEPARATOR context_pieces

/-- One DuckDuckGo result dictionary as read by tools.py (`.get` with
defaults). -/
structure WebResult where
  title : Option String
  body : Option String
  href : Option String
deriving DecidableEq

/-- tools.py line 127: `f"Result {i+1}: {title}\nURL: {url}\nSnippet: {body}"`. -/
def resultBlock (rank : Nat) (doc : WebResult) : String :=
  "Result " ++ toString rank ++ ": " ++ doc.title.getD "No Title" ++
    "\nURL: " ++ doc.href.getD "No URL" ++
    "\nSnippet: " ++ doc.body.getD "No snippet available."

/-- tools.py lines 122-128: the web-result formatting loop. -/
def formatWebAux (i : Nat) : List WebResult → List String
  | [] => []
  | doc :: rest => resultBlock (i + 1) doc :: formatWebAux (i + 1) rest

/-- tools.py lines 90-137: `web_search_tool`, parameterized by the gateway
call's outcome; any exception folds into the returned error string. -/
def web_search_tool (searchCall : GatewayResult (List WebResult)) : String :=
  match searchCall with
  | .raises e => "An unexpected error occurred during web search: " ++ e
  | .ok results =>
    if results = [] then
      "No relevant results found on the web for this query."
    else
      joinSep SEPARATOR (formatWebAux 0 results)

/-! ### ingest_data.py / vector_store.py -/

/-- The externally visible calls an ingestion run makes, in order.  `connect`
covers `get_qdrant_client` + `create_collection_if_not_exists`; `upsert n`
is the actual `client.upsert` of `n` points. -/
inductive IngestEffect where
  | fetch
  | split
  | embed
  | connect
  | upsert (numPoints : Nat)
deriving DecidableEq

/-- Environment of one ingestion run: the outcomes of the opaque stages. -/
structure IngestEnv where
  fetched : Option String
  chunks : List String
  apiKeySet : Bool
  embedCall : GatewayResult (List (List Int))
  connectRaises : Bool

/-- ingest_data.py lines 11-72: the five-stage pipeline, recorded as the
trace of external calls it performs.  Each stage gates the next exactly as
the source's early `return`s do; the embedding `try/except` aborts on a
raise; step 5's `try` stops at the first connection failure. -/
def ingest (env : IngestEnv) : List IngestEffect :=
  let t0 : List IngestEffect := [.fetch]
  match env.fetched with
  | none => t0
  | some content =>
    if content = "" then t0
    else
      let t1 := t0 ++ [IngestEffect.split]
      if env.chunks = [] then t1
      else if !env.apiKeySet then t1
      else
        let t2 := t1 ++ [IngestEffect.embed]
        match env.embedCall with
        | .raises _ => t2
        | .ok embeddings =>
          if embeddings = [] ∨ embeddings.length ≠ env.chunks.length then t2
          else
            let t3 := t2 ++ [IngestEffect.connect]
            if env.connectRaises then t3
            else t3 ++ [IngestEffect.upsert embeddings.length]

/-- Whether an effect modifies the vector index. -/
def touchesIndex : IngestEffect → Bool
  | .upsert _ => true
  | _ => false

/-- The index's point count after a trace: only upserts can change it (an
upsert of `n` fresh sequential IDs adds `n` points). -/
def pointCountAfter (count : Nat) : List IngestEffect → Nat
  | [] => count
  | .upsert n :: rest => pointCountAfter (count + n) rest
  | _ :: rest => pointCountAfter count rest

/-- A Qdrant `PointStruct`: ID, vector, payload. -/
structure PointStruct where
  pointId : Nat
  vector : List Int
  payload : List (String × String)
deriving DecidableEq

/-- What `upload_embeddings` does, observably: return early with no data,
raise `ValueError` on an ID/vector length mismatch, or call `client.upsert`
with a concrete point list. -/
inductive UploadAction where
  | noData
  | noPoints
  | valueError (idsLen : Nat) (vecLen : Nat)
  | upsertCall (points : List PointStruct)
deriving DecidableEq

/-- vector_store.py lines 65-105: `upload_embeddings`, parameterized by the
outcome of the exact-count query (`client.count`).  When `ids` is `None`,
the start ID is the exact count, or `0` if the count query raises (the
`except` at lines 82-84); points are built by `zip(ids, embeddings,
payloads)` and upserted. -/
def upload_embeddings (embeddings : List (List Int))
    (payloads : List (List (String × String)))
    (givenIds : Option (List Nat)) (countCall : GatewayResult Nat) : UploadAction :=
  if embeddings = [] ∨ payloads = [] then .noData
  else
    let num_vectors := embeddings.length
    let idsOrError : Except (Nat × Nat) (List Nat) :=
      match givenIds with
      | none =>
        let start_id :=
          match countCall with
          | .ok current_count => current_count
          | .raises _ => 0
        .ok (List.range' start_id num_vectors)
      | some given =>
        if given.length ≠ num_vectors then .error (given.length, num_vectors)
        else .ok given
    match idsOrError with
    | .error lens => .valueError lens.1 lens.2
    | .ok ids =>
      let points_to_upload :=
        (ids.zip (embeddings.zip payloads)).map fun x => PointStruct.mk x.1 x.2.1 x.2.2
      if points_to_upload = [] then .noPoints
      else .upsertCall points_to_upload

/-- Qdrant upsert semantics: create-or-replace by point ID (points whose IDs
collide with incoming ones are replaced, the rest are kept). -/
def applyUpsert (index : List PointStruct) (points : List PointStruct) : List PointStruct :=
  (index.filter fun p => points.all fun q => q.pointId ≠ p.pointId) ++ points

/-- The point stored under a given ID. -/
def lookupPoint (index : List PointStruct) (i : Nat) : Option PointStruct :=
  index.find? fun p => p.pointId = i

/-- Modelled from the spec's formatting law (§4.2/§8), for comparison with
the source's `formatHitsAux`: one `"Document {rank} (Score: {score}):\n
{content}"` block per hit, rank following the hit's position in the result
list. -/
def specDocumentBlocks (i : Nat) : List ScoredPoint → List String
  | [] => []
  | doc :: rest =>
    docBlock (i + 1) doc.scoreStr ((contentOf doc).getD "") :: specDocumentBlocks (i + 1) rest

/-- The points `upload_embeddings` builds from an ID list:
`zip(ids, embeddings, payloads)` turned into `PointStruct`s. -/
def pointsFromLists (ids : List Nat) (embeddings : List (List Int))
    (payloads : List (List (String × String))) : List PointStruct :=
  (ids.zip (embeddings.zip payloads)).map fun x => PointStruct.mk x.1 x.2.1 x.2.2

/-! ### Helper lemmas -/

theorem ne_empty_of_length_ne_zero (s : String) (h : s.length ≠ 0) : s ≠ "" :=
  fun hs => h (hs ▸ rfl)

theorem append_ne_empty_left (a b : String) (ha : a.length ≠ 0) : a ++ b ≠ "" := by
  apply ne_empty_of_length_ne_zero
  rw [String.length_append]
  omega

theorem docBlock_length_ne_zero (rank : Nat) (s c : String) :
    (docBlock rank s c).length ≠ 0 := by
  simp only [docBlock, String.length_append]
  have h9 : "Document ".length = 9 := rfl
  omega

theorem joinSep_length_ne_zero (sep : String) (l : List String)
    (hne : l ≠ []) (hall : ∀ x ∈ l, x.length ≠ 0) : (joinSep sep l).length ≠ 0 := by
  match l with
  | [x] => simpa [joinSep] using hall x (by simp)
  | x :: y :: ys =>
    have hx := hall x (by simp)
    simp only [joinSep, String.length_append]
    omega

theorem formatHitsAux_mem_length (i : Nat) (l : List ScoredPoint) (x : String)
    (hx : x ∈ formatHitsAux i l) : x.length ≠ 0 := by
  induction l generalizing i with
  | nil => simp [formatHitsAux] at hx
  | cons doc rest ih =>
    simp only [formatHitsAux] at hx
    rcases hpay : doc.payload with _ | kvs <;> simp only [hpay] at hx
    · exact ih (i + 1) hx
    · by_cases hk : kvs = []
      · rw [if_pos hk] at hx
        exact ih (i + 1) hx
      · rw [if_neg hk] at hx
        rcases hl : kvs.lookup "content" with _ | c <;> simp only [hl] at hx
        · exact ih (i + 1) hx
        · rcases List.mem_cons.mp hx with h | h
          · exact h ▸ docBlock_length_ne_zero (i + 1) doc.scoreStr c
          · exact ih (i + 1) h

theorem vector_search_tool_ne_empty (depsOk : Bool)
    (embedCall : GatewayResult (List (List Int)))
    (searchCall : GatewayResult (List ScoredPoint)) :
    vector_search_tool depsOk embedCall searchCall ≠ "" := by
  cases depsOk with
  | false => simp [vector_search_tool]
  | true =>
    cases embedCall with
    | raises e =>
      simpa [vector_search_tool] using
        append_ne_empty_left "An unexpected error occurred during vector search: " e (by decide)
    | ok qe =>
      by_cases hqe : qe = []
      · simp [vector_search_tool, hqe]
      · cases searchCall with
        | raises e =>
          simpa [vector_search_tool, hqe] using
            append_ne_empty_left "An unexpected error occurred during vector search: " e (by decide)
        | ok results =>
          by_cases hr : results = []
          · simp [vector_search_tool, hqe, hr]
          · by_cases hp : formatHitsAux 0 results = []
            · simp [vector_search_tool, hqe, hr, hp]
            · have : joinSep SEPARATOR (formatHitsAux 0 results) ≠ "" := by
                apply ne_empty_of_length_ne_zero
                exact joinSep_length_ne_zero SEPARATOR _ hp
                  (fun x hx => formatHitsAux_mem_length 0 results x hx)
              simpa [vector_search_tool, hqe, hr, hp] using this

theorem formatHitsAux_all_content (i : Nat) (l : List ScoredPoint)
    (h : ∀ doc ∈ l, (contentOf doc).isSome) :
    formatHitsAux i l = specDocumentBlocks i l := by
  induction l generalizing i with
  | nil => rfl
  | cons doc rest ih =>
    have hdoc := h doc (by simp)
    have hrest : ∀ d ∈ rest, (contentOf d).isSome := fun d hd => h d (by simp [hd])
    rcases hpay : doc.payload with _ | kvs
    · simp [contentOf, hpay] at hdoc
    · by_cases hk : kvs = []
      · simp [contentOf, hpay, hk] at hdoc
      · rcases hl : kvs.lookup "content" with _ | c
        · simp [contentOf, hpay, hk, hl] at hdoc
        · simp [formatHitsAux, specDocumentBlocks, hpay, hk, hl, contentOf, ih _ hrest]

theorem formatHitsAux_no_content (i : Nat) (l : List ScoredPoint)
    (h : ∀ doc ∈ l, contentOf doc = none) :
    formatHitsAux i l = [] := by
  induction l generalizing i with
  | nil => rfl
  | cons doc rest ih =>
    have hdoc := h doc (by simp)
    have hrest : ∀ d ∈ rest, contentOf d = none := fun d hd => h d (by simp [hd])
    rcases hpay : doc.payload with _ | kvs
    · simp [formatHitsAux, hpay, ih _ hrest]
    · by_cases hk : kvs = []
      · simp [formatHitsAux, hpay, hk, ih _ hrest]
      · rcases hl : kvs.lookup "content" with _ | c
        · simp [formatHitsAux, hpay, hk, hl, ih _ hrest]
        · simp [contentOf, hpay, hk, hl] at hdoc

theorem specDocumentBlocks_length (i : Nat) (l : List ScoredPoint) :
    (specDocumentBlocks i l).length = l.length := by
  induction l generalizing i with
  | nil => rfl
  | cons doc rest ih => simp [specDocumentBlocks, ih]

/-! ### Theorems -/

/-- C3: the Retrieval Tool always returns a (non-empty) string — every
exception path of this embedding, including raising gateways, folds into a
returned string — and on an empty search result set it returns the literal
nothing-found message, never the empty string. -/
theorem retrieval_tool_total_and_nothing_found (depsOk : Bool)
    (embedCall : GatewayResult (List (List Int)))
    (searchCall : GatewayResult (List ScoredPoint))
    (v : List (List Int)) (hv : v ≠ []) :
    vector_search_tool depsOk embedCall searchCall ≠ "" ∧
    vector_search_tool true (.ok v) (.ok []) =
      "No relevant documents found in the knowledge base for this query." := by
  refine ⟨vector_search_tool_ne_empty depsOk embedCall searchCall, ?_⟩
  simp [vector_search_tool, hv]

/-- Witness for C3: a concrete raising embedding call still yields a
non-empty string, and a concrete empty result set yields the literal
nothing-found message. -/
theorem retrieval_tool_total_and_nothing_found_witness :
    vector_search_tool true (.raises "boom") (.ok [⟨0, "0.5000", none⟩]) ≠ "" ∧
    vector_search_tool true (.ok [[1, 2]]) (.ok []) =
      "No relevant documents found in the knowledge base for this query." :=
  retrieval_tool_total_and_nothing_found true (.raises "boom")
    (.ok [⟨0, "0.5000", none⟩]) [[1, 2]] (by decide)

/-- The two example hits used by the C4 witness. -/
def demoHits : List ScoredPoint :=
  [⟨7, "0.9000", some [("content", "A")]⟩, ⟨3, "0.5000", some [("content", "B")]⟩]

/-- C4: when every hit's payload has retrievable content, the Retrieval
Tool's output is exactly one `"Document {rank} (Score: {score}):\n{content}"`
block per hit, in input (score-descending) order, joined by
`"\n\n---\n\n"`; when every hit lacks retrievable content, the output is the
content-unavailable string, which differs from the nothing-found string. -/
theorem retrieval_formatting_round_trip (v : List (List Int)) (results : List ScoredPoint)
    (hv : v ≠ []) (hr : results ≠ []) :
    ((∀ doc ∈ results, (contentOf doc).isSome) →
      vector_search_tool true (.ok v) (.ok results) =
        joinSep SEPARATOR (specDocumentBlocks 0 results) ∧
      (specDocumentBlocks 0 results).length = results.length) ∧
    ((∀ doc ∈ results, contentOf doc = none) →
      vector_search_tool true (.ok v) (.ok results) =
        "Found relevant document references, but could not retrieve their content." ∧
      vector_search_tool true (.ok v) (.ok results) ≠
        "No relevant documents found in the knowledge base for this query.") := by
  constructor
  · intro hall
    have hfmt := formatHitsAux_all_content 0 results hall
    have hlen := specDocumentBlocks_length 0 results
    have hpieces : specDocumentBlocks 0 results ≠ [] := by
      intro hcontra
      rw [hcontra] at hlen
      exact hr (List.length_eq_zero.mp hlen.symm)
    refine ⟨?_, hlen⟩
    simp [vector_search_tool, hv, hr, hfmt, hpieces]
  · intro hnone
    have hfmt := formatHitsAux_no_content 0 results hnone
    constructor
    · simp [vector_search_tool, hv, hr, hfmt]
    · simp [vector_search_tool, hv, hr, hfmt]

/-- Witness for C4: two concrete hits with content, producing exactly the two
expected blocks in input order. -/
theorem retrieval_formatting_round_trip_witness :
    (vector_search_tool true (.ok [[1]]) (.ok demoHits) =
       joinSep SEPARATOR (specDocumentBlocks 0 demoHits) ∧
     (specDocumentBlocks 0 demoHits).length = demoHits.length) ∧
    vector_search_tool true (.ok [[1]]) (.ok demoHits) =
      "Document 1 (Score: 0.9000):\nA\n\n---\n\nDocument 2 (Score: 0.5000):\nB" :=
  ⟨(retrieval_formatting_round_trip [[1]] demoHits (by decide) (by decide)).1 (by decide),
   by decide⟩

/-- C1: when the router proposes both flags true, the effective decision used
for branch selection has `web_search = false` and `vector_search = true`, and
the turn takes the vector-search branch (the RAG agent), never the
web-search branch. -/
theorem both_flags_take_vector_branch (d : RoutingDecision) (ws : AgentState)
    (run : RunOutcome) (hv : d.vector_search = true) (hw : d.web_search = true) :
    (effectiveDecision (.returns (some (.decision d)))).web_search = false ∧
    (effectiveDecision (.returns (some (.decision d)))).vector_search = true ∧
    (executeTurn (effectiveDecision (.returns (some (.decision d)))) ws run).agent_used =
      "RAG Agent (Vector Search)" := by
  have h : effectiveDecision (.returns (some (.decision d))) = { d with web_search := false } := by
    simp [effectiveDecision, hv, hw]
  refine ⟨by simp [h], by simp [h, hv], ?_⟩
  rw [h]
  cases run <;> simp [executeTurn, hv, ragBranch]

/-- Witness for C1 at the concrete decision `{vector_search=true, web_search=true}`. -/
theorem both_flags_take_vector_branch_witness :
    (effectiveDecision (.returns (some (.decision ⟨true, true⟩)))).web_search = false ∧
    (effectiveDecision (.returns (some (.decision ⟨true, true⟩)))).vector_search = true ∧
    (executeTurn (effectiveDecision (.returns (some (.decision ⟨true, true⟩))))
      ⟨"p", ["WebSearchCurrentEvents"], true⟩ RunOutcome.raises).agent_used =
      "RAG Agent (Vector Search)" :=
  both_flags_take_vector_branch ⟨true, true⟩ ⟨"p", ["WebSearchCurrentEvents"], true⟩
    RunOutcome.raises rfl rfl

/-- C7: when the routing call raises, returns a falsy result, or returns data
that is not a `RoutingDecision`, the effective decision is
`{vector_search=false, web_search=false}` and the turn proceeds to the
direct-answer branch instead of aborting. -/
theorem routing_failure_defaults_to_direct (call : RoutingCall) (ws : AgentState)
    (run : RunOutcome)
    (h : call = .raises ∨ call = .returns none ∨ call = .returns (some .unexpected)) :
    effectiveDecision call = ⟨false, false⟩ ∧
    (executeTurn (effectiveDecision call) ws run).agent_used = "Direct Answer Agent" := by
  rcases h with h | h | h <;> subst h <;>
    exact ⟨rfl, by cases run <;> rfl⟩

/-- Witness for C7 at a concrete raising routing call. -/
theorem routing_failure_defaults_to_direct_witness :
    effectiveDecision RoutingCall.raises = ⟨false, false⟩ ∧
    (executeTurn (effectiveDecision RoutingCall.raises)
      ⟨"p", ["WebSearchCurrentEvents"], true⟩ (RunOutcome.returns (some (some "ok")))).agent_used =
      "Direct Answer Agent" :=
  routing_failure_defaults_to_direct RoutingCall.raises
    ⟨"p", ["WebSearchCurrentEvents"], true⟩ (RunOutcome.returns (some (some "ok")))
    (Or.inl rfl)

/-- C2: on a direct-answer turn (both routing flags false), the shared
web-search agent's `system_prompt` and `tools` after the turn equal their
values from before the turn, whether the generation call returns or raises. -/
theorem direct_turn_restores_prompt_and_tools (d : RoutingDecision) (ws : AgentState)
    (run : RunOutcome) (hv : d.vector_search = false) (hw : d.web_search = false) :
    (executeTurn d ws run).wsAgent.system_prompt = ws.system_prompt ∧
    (executeTurn d ws run).wsAgent.tools = ws.tools := by
  cases run <;> simp [executeTurn, hv, hw, directBranch]

/-- Witness for C2: a concrete direct-answer turn whose generation call
raises still restores the prompt and tool list. -/
theorem direct_turn_restores_prompt_and_tools_witness :
    (executeTurn ⟨false, false⟩ ⟨"web prompt", ["WebSearchCurrentEvents"], true⟩
      RunOutcome.raises).wsAgent.system_prompt = "web prompt" ∧
    (executeTurn ⟨false, false⟩ ⟨"web prompt", ["WebSearchCurrentEvents"], true⟩
      RunOutcome.raises).wsAgent.tools = ["WebSearchCurrentEvents"] :=
  direct_turn_restores_prompt_and_tools ⟨false, false⟩
    ⟨"web prompt", ["WebSearchCurrentEvents"], true⟩ RunOutcome.raises rfl rfl

/-- C9: after a direct-answer turn the shared web-search agent's
`auto_execute_tools` flag is `false` (the `finally` block restores only
`tools` and `system_prompt`), and a web-search turn sets it back to `true`. -/
theorem direct_turn_leaves_auto_execute_off (d : RoutingDecision) (ws ws2 : AgentState)
    (run run2 : RunOutcome) (hv : d.vector_search = false) (hw : d.web_search = false) :
    (executeTurn d ws run).wsAgent.auto_execute_tools = false ∧
    (executeTurn ⟨false, true⟩ ws2 run2).wsAgent.auto_execute_tools = true := by
  constructor
  · cases run <;> simp [executeTurn, hv, hw, directBranch]
  · cases run2 <;> simp [executeTurn, webBranch]

/-- Witness for C9: concrete direct-answer turn starting from
`auto_execute_tools = true`, followed by a concrete web-search turn. -/
theorem direct_turn_leaves_auto_execute_off_witness :
    (executeTurn ⟨false, false⟩ ⟨"p", ["WebSearchCurrentEvents"], true⟩
      (RunOutcome.returns (some (some "hi")))).wsAgent.auto_execute_tools = false ∧
    (executeTurn ⟨false, true⟩ ⟨"p", ["WebSearchCurrentEvents"], false⟩
      RunOutcome.raises).wsAgent.auto_execute_tools = true :=
  direct_turn_leaves_auto_execute_off ⟨false, false⟩
    ⟨"p", ["WebSearchCurrentEvents"], true⟩ ⟨"p", ["WebSearchCurrentEvents"], false⟩
    (RunOutcome.returns (some (some "hi"))) RunOutcome.raises rfl rfl

/-- C5: the Web Tool converts a raised gateway exception into a string
containing the error description, and converts an empty result set into the
explicit no-results string; in this embedding it is a total function into
`String`, so it never raises to its caller. -/
theorem web_tool_never_raises (e : String) :
    web_search_tool (.raises e) = "An unexpected error occurred during web search: " ++ e ∧
    web_search_tool (.ok []) = "No relevant results found on the web for this query." :=
  ⟨rfl, rfl⟩

/-- C8 counterexample: on a turn where generation produced nothing, the
displayed output is not the literal sentinel `"<no response>"`. -/
theorem display_sentinel_counterexample :
    displayAnswer none "Direct Answer Agent" ≠ "<no response>" := by decide

/-- C8 amended: the displayed final answer is the trimmed generated text when
it is truthy; when generation produced nothing (`None` or the empty string)
the displayed output is the sentinel
`"<{agent_used} could not generate a response.>"`. -/
theorem display_trim_or_agent_sentinel (s agent_used : String) (h : s ≠ "") :
    displayAnswer (some s) agent_used = s.trim ∧
    displayAnswer none agent_used = "<" ++ agent_used ++ " could not generate a response.>" ∧
    displayAnswer (some "") agent_used = "<" ++ agent_used ++ " could not generate a response.>" := by
  refine ⟨?_, rfl, rfl⟩
  simp [displayAnswer, h]

/-- Witness for C8 (amended) at a concrete answer and agent label. -/
theorem display_trim_or_agent_sentinel_witness :
    displayAnswer (some "  42  ") "Direct Answer Agent" = "  42  ".trim ∧
    displayAnswer none "Direct Answer Agent" =
      "<" ++ "Direct Answer Agent" ++ " could not generate a response.>" ∧
    displayAnswer (some "") "Direct Answer Agent" =
      "<" ++ "Direct Answer Agent" ++ " could not generate a response.>" :=
  display_trim_or_agent_sentinel "  42  " "Direct Answer Agent" (by decide)

theorem ingest_mismatch_trace (env : IngestEnv)
    (hmm : ∀ es, env.embedCall = .ok es → es.length ≠ env.chunks.length) :
    ingest env = [.fetch] ∨ ingest env = [.fetch, .split] ∨
    ingest env = [.fetch, .split, .embed] := by
  rcases env with ⟨fetched, chunks, apiKey, embedCall, connectRaises⟩
  rcases fetched with _ | content
  · left; rfl
  · by_cases hc : content = ""
    · left; simp [ingest, hc]
    · by_cases hch : chunks = []
      · right; left; simp [ingest, hc, hch]
      · cases apiKey with
        | false => right; left; simp [ingest, hc, hch]
        | true =>
          cases embedCall with
          | raises msg => right; right; simp [ingest, hc, hch]
          | ok es =>
            right; right
            have hes := hmm es rfl
            simp [ingest, hc, hch, hes]

/-- C6: when embedding generation fails or returns a number of embeddings
different from the number of chunks, the ingestion run performs no
vector-store connection and no upsert, so the index's point count is
unchanged by that run. -/
theorem ingest_embed_mismatch_leaves_index_unchanged (env : IngestEnv) (count : Nat)
    (hmm : ∀ es, env.embedCall = .ok es → es.length ≠ env.chunks.length) :
    IngestEffect.connect ∉ ingest env ∧
    (∀ n, IngestEffect.upsert n ∉ ingest env) ∧
    pointCountAfter count (ingest env) = count := by
  rcases ingest_mismatch_trace env hmm with h | h | h <;> rw [h] <;>
    exact ⟨by simp, fun n => by simp, rfl⟩

/-- Witness for C6: a concrete run producing one embedding for two chunks
connects to nothing, upserts nothing, and leaves a count of 5 at 5. -/
theorem ingest_embed_mismatch_leaves_index_unchanged_witness :
    IngestEffect.connect ∉ ingest ⟨some "text", ["c1", "c2"], true, .ok [[1]], false⟩ ∧
    IngestEffect.upsert 1 ∉ ingest ⟨some "text", ["c1", "c2"], true, .ok [[1]], false⟩ ∧
    pointCountAfter 5 (ingest ⟨some "text", ["c1", "c2"], true, .ok [[1]], false⟩) = 5 :=
  ⟨(ingest_embed_mismatch_leaves_index_unchanged _ 5
      (by intro es h; simp at h; subst h; decide)).1,
   (ingest_embed_mismatch_leaves_index_unchanged _ 5
      (by intro es h; simp at h; subst h; decide)).2.1 1,
   (ingest_embed_mismatch_leaves_index_unchanged _ 5
      (by intro es h; simp at h; subst h; decide)).2.2⟩

theorem pointsFromLists_map_pointId (ids : List Nat) (embeddings : List (List Int))
    (payloads : List (List (String × String)))
    (h1 : ids.length ≤ embeddings.length) (h2 : ids.length ≤ payloads.length) :
    (pointsFromLists ids embeddings payloads).map PointStruct.pointId = ids := by
  unfold pointsFromLists
  rw [List.map_map]
  have hcomp : (PointStruct.pointId ∘ fun x : Nat × (List Int × List (String × String)) =>
      PointStruct.mk x.1 x.2.1 x.2.2) = Prod.fst := rfl
  rw [hcomp]
  apply List.map_fst_zip
  rw [List.length_zip]
  exact le_min h1 h2

/-- C10: in `upload_embeddings`, when no IDs are supplied and the exact-count
query raises, the function still reaches the upsert: the upserted points get
IDs `0, 1, ..., N-1`, and because upsert is create-or-replace by ID, the
point stored under any ID `k < N` afterwards is the new point, regardless of
what the index held there before (replacement, not append). -/
theorem upload_count_failure_overwrites_from_zero (embeddings : List (List Int))
    (payloads : List (List (String × String))) (msg : String)
    (index : List PointStruct) (k : Nat)
    (hne : embeddings ≠ []) (hlen : payloads.length = embeddings.length)
    (hk : k < embeddings.length) :
    upload_embeddings embeddings payloads none (.raises msg) =
      .upsertCall (pointsFromLists (List.range' 0 embeddings.length) embeddings payloads) ∧
    (pointsFromLists (List.range' 0 embeddings.length) embeddings payloads).map
      PointStruct.pointId = List.range embeddings.length ∧
    lookupPoint (applyUpsert index
        (pointsFromLists (List.range' 0 embeddings.length) embeddings payloads)) k =
      lookupPoint (pointsFromLists (List.range' 0 embeddings.length) embeddings payloads) k ∧
    (lookupPoint (pointsFromLists (List.range' 0 embeddings.length) embeddings payloads) k).isSome := by
  have hplen : payloads ≠ [] := by
    intro hcontra
    rw [hcontra] at hlen
    exact hne (List.length_eq_zero.mp hlen.symm)
  have hrlen : (List.range' 0 embeddings.length).length = embeddings.length :=
    List.length_range' 0 1 embeddings.length
  have hmap : (pointsFromLists (List.range' 0 embeddings.length) embeddings payloads).map
      PointStruct.pointId = List.range' 0 embeddings.length :=
    pointsFromLists_map_pointId _ _ _ (by omega) (by omega)
  have hkmem : k ∈ (pointsFromLists (List.range' 0 embeddings.length) embeddings payloads).map
      PointStruct.pointId := by
    rw [hmap]
    exact List.mem_range'_1.mpr ⟨Nat.zero_le k, by omega⟩
  obtain ⟨q, hq, hqid⟩ := List.mem_map.mp hkmem
  have hptsne : pointsFromLists (List.range' 0 embeddings.length) embeddings payloads ≠ [] := by
    intro hcontra
    rw [hcontra] at hq
    exact List.not_mem_nil q hq
  refine ⟨?_, ?_, ?_, ?_⟩
  · simp only [upload_embeddings]
    rw [if_neg (by push_neg; exact ⟨hne, hplen⟩)]
    show (if pointsFromLists (List.range' 0 embeddings.length) embeddings payloads = []
        then UploadAction.noPoints
        else UploadAction.upsertCall
          (pointsFromLists (List.range' 0 embeddings.length) embeddings payloads)) =
      UploadAction.upsertCall (pointsFromLists (List.range' 0 embeddings.length) embeddings payloads)
    rw [if_neg hptsne]
  · rw [hmap, List.range_eq_range']
  · unfold applyUpsert lookupPoint
    rw [List.find?_append]
    have hnone : (index.filter fun p =>
        (pointsFromLists (List.range' 0 embeddings.length) embeddings payloads).all
          fun q2 => q2.pointId ≠ p.pointId).find? (fun p => p.pointId = k) = none := by
      rw [List.find?_eq_none]
      intro p hp
      obtain ⟨_, hall⟩ := List.mem_filter.mp hp
      have := (List.all_eq_true.mp hall) q hq
      simp only [decide_eq_true_eq] at this ⊢
      intro hpk
      exact this (by rw [hqid, hpk])
    rw [hnone, Option.none_or]
  · unfold lookupPoint
    rw [List.find?_isSome]
    exact ⟨q, hq, by simp [hqid]⟩

/-- Witness for C10: two embeddings, a raising count query, and an index
that already holds a point with ID 0; the new point 0 replaces it. -/
theorem upload_count_failure_overwrites_from_zero_witness :
    upload_embeddings [[1], [2]] [[("content", "a")], [("content", "b")]] none (.raises "boom") =
      .upsertCall (pointsFromLists (List.range' 0 (List.length [[1], [2]]))
        [[1], [2]] [[("content", "a")], [("content", "b")]]) ∧
    (pointsFromLists (List.range' 0 (List.length [[1], [2]]))
        [[1], [2]] [[("content", "a")], [("content", "b")]]).map PointStruct.pointId =
      List.range (List.length [[1], [2]]) ∧
    lookupPoint (applyUpsert [⟨0, [9], [("content", "old")]⟩]
        (pointsFromLists (List.range' 0 (List.length [[1], [2]]))
          [[1], [2]] [[("content", "a")], [("content", "b")]])) 0 =
      lookupPoint (pointsFromLists (List.range' 0 (List.length [[1], [2]]))
        [[1], [2]] [[("content", "a")], [("content", "b")]]) 0 ∧
    (lookupPoint (pointsFromLists (List.range' 0 (List.length [[1], [2]]))
        [[1], [2]] [[("content", "a")], [("content", "b")]]) 0).isSome :=
  upload_count_failure_overwrites_from_zero [[1], [2]] [[("content", "a")], [("content", "b")]]
    "boom" [⟨0, [9], [("content", "old")]⟩] 0 (by decide) (by decide) (by decide)

end MultiAgentRAG
